import Mathlib

/-!
Shallow embedding of the neighborhood-resolution core of
`pkg/api/neighborhood.go` (closest-airbnb-finder).

Modelling conventions:
* `float64` distances and coordinates are modelled as `Rat`; the claims under
  study are about control flow, caching and graph structure, not rounding.
* The external PostGIS distance query (`getDistanceBetweenTwoCoordinates`
  delegates to `ST_Distance_Sphere`) is an abstract deterministic
  `DistanceProvider` returning `Except String Rat`.
* The `crypto/md5` hex digest used by `generateNeighborhoodCacheKey` is an
  abstract function parameter `md5hex : String → String` (a fixed function of
  the joined, sorted key string, exactly as in the source).
* Go maps are modelled as association lists in insertion order.  The Go map
  iteration order of `neighborhoodFrequency` (a `map[string]int`) is
  unspecified at runtime, so the heap-construction step takes the entry list
  as an explicit parameter; a run of the program corresponds to some
  permutation of the frequency table.
* `var graph Graph` leaves `graph.edges` a nil map.  In Go, reading a nil map
  yields zero values but writing to one is a runtime fault.  The edges map is
  therefore an `Option`, and an attempted write through `none` aborts the run,
  carrying the state and the edge whose insertion faulted.
-/

/-- The Neighborhood record of the source (lines 19-26). -/
structure Neighborhood where
  Name : String
  City : String
  StateOrProvinceName : String
  Country : String
  Latitude : Rat
  Longitude : Rat
deriving DecidableEq, Repr

/-- The Go zero value of Neighborhood, i.e. `Neighborhood{}`. -/
def zeroNeighborhood : Neighborhood :=
  { Name := "", City := "", StateOrProvinceName := "", Country := "",
    Latitude := 0, Longitude := 0 }

/-- One step of the frequency-table construction (source lines 207-215):
`neighborhoodFrequency[name]++` when the key exists, else set it to 1. -/
def bumpFreq (acc : List (String × Nat)) (name : String) : List (String × Nat) :=
  if acc.any (fun p => p.1 == name) then
    acc.map (fun p => if p.1 == name then (p.1, p.2 + 1) else p)
  else acc ++ [(name, 1)]

/-- The contents of the Go `neighborhoodFrequency` map, as an association
list in first-insertion order.  A concrete run of the program iterates these
entries in some arbitrary permutation. -/
def neighborhoodFrequency (neighborhoods : List Neighborhood) : List (String × Nat) :=
  neighborhoods.foldl (fun acc n => bumpFreq acc n.Name) []

/-- The heap element struct of the source (lines 230-233; the typo in the
name is the source name). -/
structure neighorboodNameFrequency where
  name : String
  count : Nat
deriving DecidableEq, Repr

/-- The sift-up of container/heap `up`, for the min-heap whose `Less` is
`h[i].count < h[j].count` (source line 237).  The fuel argument only bounds
the iteration count; `up` starting at index j performs at most j swaps, so
fuel j always suffices. -/
def heapUpAux : Nat → List neighorboodNameFrequency → Nat → List neighorboodNameFrequency
  | 0, h, _ => h
  | fuel + 1, h, j =>
    if j = 0 then h
    else
      match h[(j - 1) / 2]?, h[j]? with
      | some hi, some hj =>
        if hj.count < hi.count then
          heapUpAux fuel ((h.set ((j - 1) / 2) hj).set j hi) ((j - 1) / 2)
        else h
      | _, _ => h

/-- container/heap `heap.Push`: append, then sift up from the last index. -/
def heapPush (h : List neighorboodNameFrequency) (x : neighorboodNameFrequency) :
    List neighorboodNameFrequency :=
  heapUpAux h.length (h ++ [x]) h.length

/-- getMaxHeap (source lines 253-261): heap.Init on the empty heap is a
no-op, then heap.Push once per frequency-map entry, in map iteration order. -/
def getMaxHeap (entries : List (String × Nat)) : List neighorboodNameFrequency :=
  entries.foldl (fun h e => heapPush h { name := e.1, count := e.2 }) []

/-- The loop of findNeighborhoodsWithSameFrequency (source lines 275-285).
Go calls the plain `Pop` METHOD (not `heap.Pop`), which removes and returns
the LAST slice element, and the loop condition `i < h.Len()` is re-evaluated
against the shrinking length.  Fuel bounds the iteration count; the loop runs
at most `h.length` times since every iteration shortens the slice. -/
def sameFreqLoopAux :
    Nat → Nat → Nat → List String → List neighorboodNameFrequency → List String
  | 0, _, _, names, _ => names
  | fuel + 1, i, maxCount, names, h =>
    if i < h.length then
      match h.getLast? with
      | none => names
      | some v =>
        if v.count < maxCount then names
        else sameFreqLoopAux fuel (i + 1) v.count (names ++ [v.name]) h.dropLast
    else names

/-- findNeighborhoodsWithSameFrequency (source lines 265-288).  The Go
function always returns a nil error, so it is modelled as pure. -/
def findNeighborhoodsWithSameFrequency (h : List neighorboodNameFrequency) : List String :=
  if h.length == 0 then []
  else if h.length == 1 then
    match h.getLast? with
    | some v => [v.name]
    | none => []
  else sameFreqLoopAux h.length 0 0 [] h

/-- findNeighborhoodWithHighestOccurrence (source lines 203-228), given the
frequency-map entries in the (arbitrary) order the Go map range produced
them.  Its Go error is always nil, so it is modelled as pure. -/
def findNeighborhoodWithHighestOccurrence (entries : List (String × Nat)) : List String :=
  findNeighborhoodsWithSameFrequency (getMaxHeap entries)

/-- sort.Strings on the 2-element key slice (source lines 362-363):
ascending lexicographic order (the core string order, spelled with its
instance so that concrete keys compute). -/
def sortTwoStrings (a b : String) : List String :=
  if @LT.lt String String.instLT b a then [b, a] else [a, b]

/-- generateNeighborhoodCacheKey (source lines 360-371): sort the two names,
join them, and hash the joined string with the md5 hex digest (abstracted as
md5hex, a fixed function of the joined string). -/
def generateNeighborhoodCacheKey (md5hex : String → String) (a b : String) : String :=
  md5hex (String.join (sortTwoStrings a b))

/-- The external distance computation consumed by
getDistanceBetweenTwoCoordinates: a deterministic function of the two
coordinate slices, which may fail. -/
def DistanceProvider : Type := List Rat → List Rat → Except String Rat

/-- getDistanceBetweenTwoCoordinates (source lines 140-163): on a provider
error it returns distance 0.0 TOGETHER WITH the error. -/
def getDistanceBetweenTwoCoordinates (provider : DistanceProvider)
    (point1 point2 : List Rat) : Rat × Option String :=
  match provider point1 point2 with
  | Except.ok d => (d, none)
  | Except.error e => (0, some e)

/-- The Edge struct of the source (lines 291-295). -/
structure Edge where
  sourceNode : Neighborhood
  targetNode : Neighborhood
  distanceInMeters : Rat
deriving DecidableEq, Repr

/-- The Graph struct of the source (lines 297-301).  `edges = none` models
the nil Go map produced by `var graph Graph`. -/
structure Graph where
  nodes : List Neighborhood
  edges : Option (List (String × List Edge))
deriving DecidableEq, Repr

/-- composeDifferingNeighborhoodNamesSlice (source lines 348-357). -/
def composeDifferingNeighborhoodNamesSlice (currentNeighborhoodName : String)
    (allNeighborhoodNames : List Neighborhood) : List Neighborhood :=
  allNeighborhoodNames.filter (fun n => currentNeighborhoodName != n.Name)

/-- Go map read `m[k]` with found flag, for the distance cache. -/
def lookupRat (m : List (String × Rat)) (k : String) : Option Rat :=
  (m.find? (fun p => p.1 == k)).map (fun p => p.2)

/-- Go map assignment `m[k] = v` on an initialized map. -/
def insertRat (m : List (String × Rat)) (k : String) (v : Rat) : List (String × Rat) :=
  if m.any (fun p => p.1 == k) then
    m.map (fun p => if p.1 == k then (p.1, v) else p)
  else m ++ [(k, v)]

/-- Go `m[k] = append(m[k], e)` on an initialized `map[string][]Edge`. -/
def appendEdge (m : List (String × List Edge)) (k : String) (e : Edge) :
    List (String × List Edge) :=
  if m.any (fun p => p.1 == k) then
    m.map (fun p => if p.1 == k then (p.1, p.2 ++ [e]) else p)
  else m ++ [(k, [e])]

/-- The mutable state of findNeighborhoodWithLeastDistanceToAllOtherNeighborhoods
(source lines 311-337): the graph under construction, the distance cache, and
(as instrumentation for the memoization claim, not program state) the log of
cache keys for which the external provider was actually invoked. -/
structure ResolveState where
  nodes : List Neighborhood
  edges : Option (List (String × List Edge))
  cache : List (String × Rat)
  providerCalls : List String
deriving DecidableEq, Repr

/-- State at entry of the function: `var graph Graph` (nil nodes slice, nil
edges map) and `distanceCache := make(map[string]float64)` (initialized,
empty). -/
def initialResolveState : ResolveState :=
  { nodes := [], edges := none, cache := [], providerCalls := [] }

/-- The cache consultation of the inner loop (source lines 323-332): on a
miss, call getDistanceBetweenTwoCoordinates, DISCARD its error (the blank
identifier on line 328) and store the returned distance — even the 0.0 error
fallback — in the cache. -/
def cacheStep (md5hex : String → String) (provider : DistanceProvider)
    (nbhd other : Neighborhood) (st : ResolveState) : Rat × ResolveState :=
  match lookupRat st.cache (generateNeighborhoodCacheKey md5hex nbhd.Name other.Name) with
  | some d => (d, st)
  | none =>
    ((getDistanceBetweenTwoCoordinates provider [nbhd.Longitude, nbhd.Latitude]
        [other.Longitude, other.Latitude]).1,
     { st with
        cache := insertRat st.cache
          (generateNeighborhoodCacheKey md5hex nbhd.Name other.Name)
          (getDistanceBetweenTwoCoordinates provider [nbhd.Longitude, nbhd.Latitude]
            [other.Longitude, other.Latitude]).1,
        providerCalls := st.providerCalls ++
          [generateNeighborhoodCacheKey md5hex nbhd.Name other.Name] })

/-- The edge construction and storage of the inner loop (source lines
334-335).  Both endpoints of the edge are the OUTER loop variable: line 321
is `targetNode := neighborhood`, and line 334 builds `Edge{sourceNode,
targetNode, d}` with `sourceNode := neighborhood` as well.  Storing the edge
writes to `graph.edges`, which is nil, a Go runtime fault, modelled by
aborting with the state and the edge whose insertion faulted. -/
def storeEdge (nbhd : Neighborhood) (d : Rat) (st : ResolveState) :
    Except (ResolveState × Edge) ResolveState :=
  match st.edges with
  | none =>
    Except.error (st, { sourceNode := nbhd, targetNode := nbhd, distanceInMeters := d })
  | some m =>
    Except.ok { st with
      edges := some (appendEdge m nbhd.Name
        { sourceNode := nbhd, targetNode := nbhd, distanceInMeters := d }) }

/-- One iteration of the inner loop (source lines 320-336): consult the
cache (computing and caching the distance on a miss), then build and store
the edge. -/
def processOther (md5hex : String → String) (provider : DistanceProvider)
    (nbhd other : Neighborhood) (st : ResolveState) :
    Except (ResolveState × Edge) ResolveState :=
  storeEdge nbhd (cacheStep md5hex provider nbhd other st).1
    (cacheStep md5hex provider nbhd other st).2

/-- The inner loop over `remainingNeighborhoods` (source lines 320-336). -/
def innerLoop (md5hex : String → String) (provider : DistanceProvider)
    (nbhd : Neighborhood) (others : List Neighborhood) (st : ResolveState) :
    Except (ResolveState × Edge) ResolveState :=
  match others with
  | [] => Except.ok st
  | o :: rest =>
    match processOther md5hex provider nbhd o st with
    | Except.error f => Except.error f
    | Except.ok st2 => innerLoop md5hex provider nbhd rest st2

/-- The outer loop over `neighborhoods` (source lines 316-337): append the
source node, compute the differing-name slice, run the inner loop. -/
def outerLoop (md5hex : String → String) (provider : DistanceProvider)
    (all : List Neighborhood) (pending : List Neighborhood) (st : ResolveState) :
    Except (ResolveState × Edge) ResolveState :=
  match pending with
  | [] => Except.ok st
  | n :: rest =>
    match innerLoop md5hex provider n
        (composeDifferingNeighborhoodNamesSlice n.Name all)
        { st with nodes := st.nodes ++ [n] } with
    | Except.error f => Except.error f
    | Except.ok st2 => outerLoop md5hex provider all rest st2

/-- The graph-construction phase of
findNeighborhoodWithLeastDistanceToAllOtherNeighborhoods (lines 312-337). -/
def runGraphBuild (md5hex : String → String) (provider : DistanceProvider)
    (neighborhoods : List Neighborhood) : Except (ResolveState × Edge) ResolveState :=
  outerLoop md5hex provider neighborhoods neighborhoods initialResolveState

/-- The state reached by the graph construction, whether or not it faulted. -/
def finalState (r : Except (ResolveState × Edge) ResolveState) : ResolveState :=
  match r with
  | Except.ok st => st
  | Except.error f => f.1

/-- The distance-sum accumulation of findMinDistanceBetweenNodes (source
lines 381-390): ranging over the edges map; a key already present is RESET
to 0 (the inverted check on line 384, dead in practice since map keys are
unique), then each incident edge distance is added, with the usual Go
read-missing-key-as-0 on `+=`. -/
def buildDistanceSums (entries : List (String × List Edge)) : List (String × Rat) :=
  entries.foldl
    (fun sums p =>
      let sums1 := if (lookupRat sums p.1).isSome then insertRat sums p.1 0 else sums
      p.2.foldl
        (fun s e => insertRat s p.1 (((lookupRat s p.1).getD 0) + e.distanceInMeters))
        sums1)
    []

/-- findMinDistanceBetweenNodes (source lines 376-403).  minValue starts at
+Inf, so the first node always wins the first comparison; an empty node slice
leaves bestNeighborhood at the Go zero value.  Ranging over a nil edges map
iterates zero times.  The Go function always returns a nil error. -/
def findMinDistanceBetweenNodes (graph : Graph) : Neighborhood :=
  if graph.nodes.length == 1 then graph.nodes.headD zeroNeighborhood
  else
    let sums := buildDistanceSums (graph.edges.getD [])
    let best := graph.nodes.foldl
      (fun (acc : Option (Rat × Neighborhood)) node =>
        let s := (lookupRat sums node.Name).getD 0
        match acc with
        | none => some (s, node)
        | some (m, b) => if s < m then some (s, node) else some (m, b))
      none
    match best with
    | none => zeroNeighborhood
    | some p => p.2

/-- findNeighborhoodWithLeastDistanceToAllOtherNeighborhoods (source lines
311-346).  Absent the nil-map fault, its error return is always nil, because
findMinDistanceBetweenNodes never fails. -/
def findNeighborhoodWithLeastDistanceToAllOtherNeighborhoods
    (md5hex : String → String) (provider : DistanceProvider)
    (neighborhoods : List Neighborhood) : Except (ResolveState × Edge) Neighborhood :=
  match runGraphBuild md5hex provider neighborhoods with
  | Except.error f => Except.error f
  | Except.ok st => Except.ok (findMinDistanceBetweenNodes { nodes := st.nodes, edges := st.edges })

/-- The filter of FindBestNeighborhood (source lines 176-183): for each name
of the frequency step, in order, append every input record carrying that
name, in input order. -/
def highestOccurrenceNeighborhoods (names : List String)
    (neighborhoods : List Neighborhood) : List Neighborhood :=
  names.foldl (fun acc nm => acc ++ neighborhoods.filter (fun n => nm == n.Name)) []

/-- FindBestNeighborhood (source lines 169-192), parameterized by the map
iteration order `entries` of the frequency table.  The first error check
(line 171) is dead because findNeighborhoodWithHighestOccurrence always
returns a nil error; the NoNeighborhoodFoundError return (line 191) is dead
because findNeighborhoodWithLeastDistanceToAllOtherNeighborhoods also always
returns a nil error — a Go runtime fault, the only abnormal outcome, is not
an error value and propagates as a crash, modelled here by `Except.error`. -/
def FindBestNeighborhood (md5hex : String → String) (provider : DistanceProvider)
    (entries : List (String × Nat)) (neighborhoods : List Neighborhood) :
    Except (ResolveState × Edge) Neighborhood :=
  let neighborhoodNames := findNeighborhoodWithHighestOccurrence entries
  findNeighborhoodWithLeastDistanceToAllOtherNeighborhoods md5hex provider
    (highestOccurrenceNeighborhoods neighborhoodNames neighborhoods)

/-- Occurrence count of a name in a CandidateSet (spec notion used to state
claims about the frequency step). -/
def countName (neighborhoods : List Neighborhood) (name : String) : Nat :=
  (neighborhoods.filter (fun n => n.Name == name)).length

/-! ### Shared lemmas about the distance cache and the graph build -/

/-- A cache lookup succeeds exactly when some stored pair carries the key. -/
theorem lookupRat_isSome_iff (m : List (String × Rat)) (k : String) :
    (lookupRat m k).isSome ↔ ∃ p, p ∈ m ∧ p.1 = k := by
  simp [lookupRat, List.find?_isSome]

/-- After a store, the stored key is present. -/
theorem insertRat_mem_self (m : List (String × Rat)) (k : String) (v : Rat) :
    (lookupRat (insertRat m k v) k).isSome := by
  rw [lookupRat_isSome_iff]
  unfold insertRat
  by_cases hany : m.any (fun p => p.1 == k)
  · rw [if_pos hany]
    have hex : ∃ q, q ∈ m ∧ q.1 = k := by
      simpa [List.any_eq_true] using hany
    obtain ⟨q, hq, hqk⟩ := hex
    refine ⟨(q.1, v), List.mem_map.mpr ⟨q, hq, ?_⟩, hqk⟩
    simp [hqk]
  · rw [if_neg hany]
    exact ⟨(k, v), List.mem_append.mpr (Or.inr (List.mem_singleton.mpr rfl)), rfl⟩

/-- A store never removes a key already present. -/
theorem insertRat_mem_mono (m : List (String × Rat)) (k : String) (v : Rat) (k2 : String)
    (h : (lookupRat m k2).isSome) : (lookupRat (insertRat m k v) k2).isSome := by
  rw [lookupRat_isSome_iff] at h ⊢
  obtain ⟨p, hp, hpk⟩ := h
  unfold insertRat
  by_cases hany : m.any (fun p => p.1 == k)
  · rw [if_pos hany]
    by_cases hpk2 : p.1 == k
    · exact ⟨(p.1, v), List.mem_map.mpr ⟨p, hp, by simp [hpk2]⟩, hpk⟩
    · exact ⟨p, List.mem_map.mpr ⟨p, hp, by simp [hpk2]⟩, hpk⟩
  · rw [if_neg hany]
    exact ⟨p, List.mem_append.mpr (Or.inl hp), hpk⟩

/-- Invariant of the tie-break loops: no cache key was sent to the provider
twice, and every key sent to the provider is now cached. -/
def CallsInv (st : ResolveState) : Prop :=
  st.providerCalls.Nodup ∧ ∀ k ∈ st.providerCalls, (lookupRat st.cache k).isSome

/-- The cache consultation preserves the invariant: the provider is called
only on a miss, and the result is stored under the missing key. -/
theorem cacheStep_inv (md5hex : String → String) (provider : DistanceProvider)
    (nbhd other : Neighborhood) (st : ResolveState) (h : CallsInv st) :
    CallsInv (cacheStep md5hex provider nbhd other st).2 := by
  unfold cacheStep
  cases hc : lookupRat st.cache (generateNeighborhoodCacheKey md5hex nbhd.Name other.Name) with
  | some d => exact h
  | none =>
    constructor
    · have hnot : generateNeighborhoodCacheKey md5hex nbhd.Name other.Name ∉ st.providerCalls := by
        intro hk
        have hs := h.2 _ hk
        rw [hc] at hs
        simp at hs
      simp [List.nodup_append, h.1, hnot]
    · intro k hk
      rcases List.mem_append.mp hk with hk | hk
      · exact insertRat_mem_mono _ _ _ _ (h.2 k hk)
      · rcases List.mem_singleton.mp hk with rfl
        exact insertRat_mem_self _ _ _

/-- Storing an edge touches neither the cache nor the call log. -/
theorem storeEdge_inv (nbhd : Neighborhood) (d : Rat) (st : ResolveState) (h : CallsInv st) :
    CallsInv (finalState (storeEdge nbhd d st)) := by
  unfold storeEdge finalState
  cases st.edges <;> exact h

/-- One inner-loop iteration preserves the invariant. -/
theorem processOther_inv (md5hex : String → String) (provider : DistanceProvider)
    (nbhd other : Neighborhood) (st : ResolveState) (h : CallsInv st) :
    CallsInv (finalState (processOther md5hex provider nbhd other st)) :=
  storeEdge_inv _ _ _ (cacheStep_inv md5hex provider nbhd other st h)

/-- The inner loop preserves the invariant, also when it faults. -/
theorem innerLoop_inv (md5hex : String → String) (provider : DistanceProvider)
    (nbhd : Neighborhood) (others : List Neighborhood) (st : ResolveState) (h : CallsInv st) :
    CallsInv (finalState (innerLoop md5hex provider nbhd others st)) := by
  induction others generalizing st with
  | nil => exact h
  | cons o rest ih =>
    have hp := processOther_inv md5hex provider nbhd o st h
    unfold innerLoop
    cases hpo : processOther md5hex provider nbhd o st with
    | error f => rw [hpo] at hp; exact hp
    | ok st2 => rw [hpo] at hp; exact ih st2 hp

/-- The outer loop preserves the invariant, also when it faults. -/
theorem outerLoop_inv (md5hex : String → String) (provider : DistanceProvider)
    (all : List Neighborhood) (pending : List Neighborhood) (st : ResolveState) (h : CallsInv st) :
    CallsInv (finalState (outerLoop md5hex provider all pending st)) := by
  induction pending generalizing st with
  | nil => exact h
  | cons n rest ih =>
    have hst1 : CallsInv { st with nodes := st.nodes ++ [n] } := h
    have hi := innerLoop_inv md5hex provider n
      (composeDifferingNeighborhoodNamesSlice n.Name all)
      { st with nodes := st.nodes ++ [n] } hst1
    unfold outerLoop
    cases hil : innerLoop md5hex provider n (composeDifferingNeighborhoodNamesSlice n.Name all)
        { st with nodes := st.nodes ++ [n] } with
    | error f => rw [hil] at hi; exact hi
    | ok st2 => rw [hil] at hi; exact ih st2 hi

/-- Over a whole graph build, the provider-call log has no repeated key. -/
theorem runGraphBuild_calls_nodup (md5hex : String → String) (provider : DistanceProvider)
    (neighborhoods : List Neighborhood) :
    (finalState (runGraphBuild md5hex provider neighborhoods)).providerCalls.Nodup :=
  (outerLoop_inv md5hex provider neighborhoods neighborhoods initialResolveState
    ⟨List.nodup_nil, by intro k hk; cases hk⟩).1

/-- The sorted 2-element key slice does not depend on the argument order. -/
theorem sortTwoStrings_comm (a b : String) : sortTwoStrings a b = sortTwoStrings b a := by
  unfold sortTwoStrings
  by_cases h1 : @LT.lt String String.instLT b a
  · by_cases h2 : @LT.lt String String.instLT a b
    · exact absurd (String.lt_trans h1 h2) (String.lt_irrefl b)
    · simp [h1, h2]
  · by_cases h2 : @LT.lt String String.instLT a b
    · simp [h1, h2]
    · have hab : a = b := String.lt_antisymm h2 h1
      subst hab
      simp

/-- The cache key is a symmetric function of the two names. -/
theorem generateNeighborhoodCacheKey_comm (md5hex : String → String) (a b : String) :
    generateNeighborhoodCacheKey md5hex a b = generateNeighborhoodCacheKey md5hex b a := by
  unfold generateNeighborhoodCacheKey
  rw [sortTwoStrings_comm]

/-- The cache consultation does not touch the node slice. -/
theorem cacheStep_nodes (md5hex : String → String) (provider : DistanceProvider)
    (nbhd other : Neighborhood) (st : ResolveState) :
    (cacheStep md5hex provider nbhd other st).2.nodes = st.nodes := by
  unfold cacheStep
  cases lookupRat st.cache (generateNeighborhoodCacheKey md5hex nbhd.Name other.Name) <;> rfl

/-- A successful edge store does not touch the node slice. -/
theorem storeEdge_ok_nodes (nbhd : Neighborhood) (d : Rat) (st st2 : ResolveState)
    (h : storeEdge nbhd d st = Except.ok st2) : st2.nodes = st.nodes := by
  unfold storeEdge at h
  cases he : st.edges with
  | none => rw [he] at h; cases h
  | some m => rw [he] at h; cases h; rfl

/-- A successful inner-loop iteration does not touch the node slice. -/
theorem processOther_ok_nodes (md5hex : String → String) (provider : DistanceProvider)
    (nbhd other : Neighborhood) (st st2 : ResolveState)
    (h : processOther md5hex provider nbhd other st = Except.ok st2) : st2.nodes = st.nodes := by
  unfold processOther at h
  rw [storeEdge_ok_nodes _ _ _ _ h, cacheStep_nodes]

/-- A successful inner loop does not touch the node slice. -/
theorem innerLoop_ok_nodes (md5hex : String → String) (provider : DistanceProvider)
    (nbhd : Neighborhood) (others : List Neighborhood) (st st2 : ResolveState)
    (h : innerLoop md5hex provider nbhd others st = Except.ok st2) : st2.nodes = st.nodes := by
  induction others generalizing st with
  | nil => unfold innerLoop at h; cases h; rfl
  | cons o rest ih =>
    unfold innerLoop at h
    cases hpo : processOther md5hex provider nbhd o st with
    | error f => rw [hpo] at h; cases h
    | ok stm =>
      rw [hpo] at h
      rw [ih stm h, processOther_ok_nodes md5hex provider nbhd o st stm hpo]

/-- A successful outer loop appends exactly the pending candidates, in
order, to the node slice. -/
theorem outerLoop_ok_nodes (md5hex : String → String) (provider : DistanceProvider)
    (all : List Neighborhood) (pending : List Neighborhood) (st st2 : ResolveState)
    (h : outerLoop md5hex provider all pending st = Except.ok st2) :
    st2.nodes = st.nodes ++ pending := by
  induction pending generalizing st with
  | nil => unfold outerLoop at h; cases h; simp
  | cons n rest ih =>
    unfold outerLoop at h
    cases hil : innerLoop md5hex provider n (composeDifferingNeighborhoodNamesSlice n.Name all)
        { st with nodes := st.nodes ++ [n] } with
    | error f => rw [hil] at h; cases h
    | ok stm =>
      rw [hil] at h
      have h1 := innerLoop_ok_nodes md5hex provider n _ _ stm hil
      rw [ih stm h, h1]
      simp

/-! ### Concrete fixtures

Small CandidateSets used to settle the claims.  `idh` stands in for the md5
hex digest (any fixed function of the joined key string; the identity keeps
the cache keys readable), and the providers are deterministic, as §6 of the
spec requires. -/

/-- Fixture constructor: a Neighborhood with the given name and centroid. -/
def mkN (name : String) (lat lng : Rat) : Neighborhood :=
  { Name := name, City := "c", StateOrProvinceName := "s", Country := "x",
    Latitude := lat, Longitude := lng }

/-- Hash fixture standing in for the md5 hex digest. -/
def idh : String → String := fun s => s

/-- Provider fixture: every distance resolves to 7 meters. -/
def provOK : DistanceProvider := fun _ _ => Except.ok 7

/-- Provider fixture: every distance query fails. -/
def provFail : DistanceProvider := fun _ _ => Except.error ("db down")

def nD1 : Neighborhood := mkN ("D") 1 1

def nE1 : Neighborhood := mkN ("E") 2 2

def nF1 : Neighborhood := mkN ("F") 3 3

/-- C1 fixture: a 3-way frequency tie. -/
def nsC1 : List Neighborhood := [nD1, nE1, nF1]

/-- The state at the moment the C1 run faults. -/
def stC1 : ResolveState :=
  { nodes := [nF1], edges := none, cache := [("EF", 7)], providerCalls := ["EF"] }

def nM2 : Neighborhood := mkN ("M") 1 1

def nN2 : Neighborhood := mkN ("N") 2 2

/-- C2 fixture: a 2-way frequency tie. -/
def nsC2 : List Neighborhood := [nM2, nN2]

def nX4 : Neighborhood := mkN ("X") 1 1

def nY4 : Neighborhood := mkN ("Y") 2 2

def nZ4 : Neighborhood := mkN ("Z") 3 3

/-- C4 fixture: a 3-way frequency tie. -/
def nsC4 : List Neighborhood := [nX4, nY4, nZ4]

/-- The state at the moment the C4 run faults. -/
def stC4 : ResolveState :=
  { nodes := [nZ4], edges := none, cache := [("YZ", 7)], providerCalls := ["YZ"] }

/-- The edge whose insertion faults the C4 run: it was built for the
distinct pair (Z, Y), yet both of its endpoints are Z. -/
def edC4 : Edge := { sourceNode := nZ4, targetNode := nZ4, distanceInMeters := 7 }

def nG5 : Neighborhood := mkN ("G") 1 1

def nH5 : Neighborhood := mkN ("H") 2 2

def nI5 : Neighborhood := mkN ("I") 3 3

/-- C5 fixture: a 3-way frequency tie. -/
def nsC5 : List Neighborhood := [nG5, nH5, nI5]

/-- The state at the moment the C5 run faults. -/
def stC5 : ResolveState :=
  { nodes := [nI5], edges := none, cache := [("HI", 7)], providerCalls := ["HI"] }

def nT6 : Neighborhood := mkN ("T") 1 1

def nU6 : Neighborhood := mkN ("U") 2 2

def nV6 : Neighborhood := mkN ("V") 3 3

/-- C6 fixture: a 3-way frequency tie, resolved with the failing provider. -/
def nsC6 : List Neighborhood := [nT6, nU6, nV6]

/-- The state at the moment the C6 run faults: the provider failed for the
pair (V, U), yet 0.0 was stored in the cache under the pair key. -/
def stC6 : ResolveState :=
  { nodes := [nV6], edges := none, cache := [("UV", 0)], providerCalls := ["UV"] }

def nKc7 : Neighborhood := mkN ("Kc") 1 1

def nKb7 : Neighborhood := mkN ("Kb") 2 2

def nKa7 : Neighborhood := mkN ("Ka") 3 3

/-- C7 fixture: Kc occurs 3 times and strictly dominates Kb (2) and Ka (1). -/
def nsC7 : List Neighborhood := [nKc7, nKc7, nKc7, nKb7, nKb7, nKa7]

/-- The state at the moment the C7 run faults. -/
def stC7 : ResolveState :=
  { nodes := [nKb7], edges := none, cache := [("KbKc", 7)], providerCalls := ["KbKc"] }

def nA1 : Neighborhood :=
  { Name := "A9", City := "cityOne", StateOrProvinceName := "s", Country := "x",
    Latitude := 1, Longitude := 1 }

def nA2 : Neighborhood :=
  { Name := "A9", City := "cityTwo", StateOrProvinceName := "s", Country := "x",
    Latitude := 2, Longitude := 2 }

/-- C9 fixture: the same name twice, with different resolved city values. -/
def nsC9 : List Neighborhood := [nA1, nA2]

/-- The graph-build state for the C9 fixture (no fault: a single distinct
name never enters the inner loop). -/
def stC9 : ResolveState :=
  { nodes := [nA1, nA2], edges := none, cache := [], providerCalls := [] }

def nP10 : Neighborhood := mkN ("P") 1 1

def nQ10 : Neighborhood := mkN ("Q") 2 2

/-- C10 fixture: a 2-way frequency tie. -/
def nsC10 : List Neighborhood := [nP10, nQ10]

/-! ### The claims -/

/-- C1: refuted on the code.  The claim says that on a frequency tie across
at least 2 distinct names FindBestNeighborhood returns the tied neighborhood
whose distance sum is minimal.  On the CandidateSet [D, E, F] — a tie across
three distinct names — the frequency step returns two names, the inner loop
runs, and its first edge store writes to the nil edges map: the run dies
with a Go runtime fault instead of returning any neighborhood. -/
theorem C1_three_way_tie_run_faults :
    neighborhoodFrequency nsC1 = [("D", 1), ("E", 1), ("F", 1)] ∧
    FindBestNeighborhood idh provOK (neighborhoodFrequency nsC1) nsC1 =
      Except.error (stC1, { sourceNode := nF1, targetNode := nF1, distanceInMeters := 7 }) :=
  ⟨rfl, rfl⟩

/-- C2: refuted on the code.  The claim says the frequency step returns
every name attaining the maximum occurrence count.  On the CandidateSet
[M, N], both names occur once (the maximum), yet the step returns only
["N"]: the code pops the heap slice with the plain Pop method and loops
only while i is below the shrinking length, so half the entries are never
examined. -/
theorem C2_tied_name_omitted :
    neighborhoodFrequency nsC2 = [("M", 1), ("N", 1)] ∧
    countName nsC2 ("M") = countName nsC2 ("N") ∧
    findNeighborhoodWithHighestOccurrence (neighborhoodFrequency nsC2) = ["N"] :=
  ⟨rfl, rfl, rfl⟩

/-- C3: refuted on the code.  The claim says the empty CandidateSet fails
with NoNeighborhoodFoundError and a zero-valued Neighborhood is never
silently returned with a nil error.  The code returns exactly that: the
frequency step yields no names, findMinDistanceBetweenNodes returns the Go
zero value with a nil error, and FindBestNeighborhood passes it through. -/
theorem C3_empty_input_silent_zero_value :
    FindBestNeighborhood idh provOK (neighborhoodFrequency []) [] =
      Except.ok zeroNeighborhood :=
  rfl

/-- C4: refuted on the code.  The claim says every edge connects two
distinct nodes and a complete graph over the tied names exists.  In the run
on [X, Y, Z], the edge built for the distinct pair (Z, Y) has both
endpoints equal to Z (line 321 sets targetNode to the outer-loop node), and
even that self-edge cannot be stored: the nil edges map faults the run, so
no graph with the required edges is ever built. -/
theorem C4_edge_endpoints_coincide :
    nY4.Name ≠ nZ4.Name ∧
    FindBestNeighborhood idh provOK (neighborhoodFrequency nsC4) nsC4 =
      Except.error (stC4, edC4) ∧
    edC4.sourceNode = edC4.targetNode :=
  ⟨by decide, rfl, rfl⟩

/-- C5: refuted on the code.  The claim says that on a tie of at least two
distinct names the resolution runs to completion without a runtime fault,
the edges map having been initialized before any append.  `var graph Graph`
leaves the edges map nil, and the first append faults the run on [G, H, I]. -/
theorem C5_edges_map_left_nil :
    initialResolveState.edges = none ∧
    FindBestNeighborhood idh provOK (neighborhoodFrequency nsC5) nsC5 =
      Except.error (stC5, { sourceNode := nI5, targetNode := nI5, distanceInMeters := 7 }) ∧
    stC5.edges = none :=
  ⟨rfl, rfl, rfl⟩

/-- C6: refuted on the code.  The claim says a provider failure during a
tie-break is propagated as a distance-resolution error and error results
are not cached.  With a provider that fails on every pair, the run on
[T, U, V] discards the error through the blank identifier, stores the 0.0
fallback in the cache under the pair key, and then dies on the nil edges
map — no distance-resolution error is ever produced (no such error type
exists in the code). -/
theorem C6_provider_error_swallowed_and_cached :
    provFail [nV6.Longitude, nV6.Latitude] [nU6.Longitude, nU6.Latitude] =
      Except.error ("db down") ∧
    FindBestNeighborhood idh provFail (neighborhoodFrequency nsC6) nsC6 =
      Except.error (stC6, { sourceNode := nV6, targetNode := nV6, distanceInMeters := 0 }) ∧
    lookupRat stC6.cache (generateNeighborhoodCacheKey idh nV6.Name nU6.Name) = some 0 :=
  ⟨rfl, rfl, rfl⟩

/-- C7: refuted on the code.  The claim says that when one name strictly
dominates in occurrence count, FindBestNeighborhood returns a neighborhood
with that name.  On [Kc, Kc, Kc, Kb, Kb, Ka], where Kc strictly dominates
with 3 occurrences, the broken heap extraction returns ["Kb", "Kc"] under
the map iteration order shown, two distinct names survive the filter, and
the run dies on the nil edges map instead of returning Kc. -/
theorem C7_dominant_name_run_faults :
    neighborhoodFrequency nsC7 = [("Kc", 3), ("Kb", 2), ("Ka", 1)] ∧
    findNeighborhoodWithHighestOccurrence (neighborhoodFrequency nsC7) = ["Kb", "Kc"] ∧
    FindBestNeighborhood idh provOK (neighborhoodFrequency nsC7) nsC7 =
      Except.error (stC7, { sourceNode := nKb7, targetNode := nKb7, distanceInMeters := 7 }) :=
  ⟨rfl, rfl, rfl⟩

/-- C8: confirmed.  The distance-cache key is symmetric in the two names —
the key slice is sorted before joining and hashing — and within one
resolution call the distance provider is invoked at most once per cache key
(hence at most once per unordered pair of distinct names): the provider is
consulted only on a cache miss and its result is stored under the missing
key at once, so the call log never repeats a key, whether or not the run
faults. -/
theorem C8_cache_key_symmetric_and_provider_called_once :
    (∀ (md5hex : String → String) (a b : String),
      generateNeighborhoodCacheKey md5hex a b = generateNeighborhoodCacheKey md5hex b a) ∧
    (∀ (md5hex : String → String) (provider : DistanceProvider)
      (neighborhoods : List Neighborhood) (a b : String),
      ((finalState (runGraphBuild md5hex provider neighborhoods)).providerCalls.count
        (generateNeighborhoodCacheKey md5hex a b)) ≤ 1) :=
  ⟨generateNeighborhoodCacheKey_comm,
   fun md5hex provider ns _ _ =>
     List.nodup_iff_count_le_one.mp (runGraphBuild_calls_nodup md5hex provider ns) _⟩

/-- C9 counterexample: the claim says the candidates surviving the
frequency filter are deduplicated by name, so the graph holds exactly one
node per distinct tied name.  On the CandidateSet [A9 of cityOne, A9 of
cityTwo], the filter output is the whole list and the finished graph build
holds BOTH records as nodes — two nodes for the single tied name. -/
theorem C9_duplicate_nodes_for_one_name :
    highestOccurrenceNeighborhoods
        (findNeighborhoodWithHighestOccurrence (neighborhoodFrequency nsC9)) nsC9 = nsC9 ∧
    runGraphBuild idh provOK nsC9 = Except.ok stC9 ∧
    stC9.nodes = [nA1, nA2] ∧ nA1.Name = nA2.Name ∧ nA1 ≠ nA2 :=
  ⟨rfl, rfl, rfl, rfl, by decide⟩

/-- C9 amended: no deduplication happens; when the graph build completes
without a fault, its node slice is exactly the filtered candidate list, one
node per surviving occurrence, in input order. -/
theorem C9_nodes_keep_every_occurrence (md5hex : String → String)
    (provider : DistanceProvider) (neighborhoods : List Neighborhood) (st : ResolveState)
    (h : runGraphBuild md5hex provider neighborhoods = Except.ok st) :
    st.nodes = neighborhoods := by
  have h2 := outerLoop_ok_nodes md5hex provider neighborhoods neighborhoods
    initialResolveState st h
  simpa [initialResolveState] using h2

/-- C9 witness: the amended statement applied to the concrete fixture. -/
theorem C9_nodes_keep_every_occurrence_witness :
    runGraphBuild idh provOK nsC9 = Except.ok stC9 ∧ stC9.nodes = nsC9 :=
  ⟨rfl, C9_nodes_keep_every_occurrence idh provOK nsC9 stC9 rfl⟩

/-- C10: refuted on the code.  The claim says FindBestNeighborhood is
deterministic for a fixed input order and a deterministic provider.  The
frequency table of [P, Q] is iterated by a Go map range in unspecified
order; under the order (P, Q) the resolver returns Q, under the equally
possible order (Q, P) it returns P. -/
theorem C10_result_depends_on_map_iteration_order :
    neighborhoodFrequency nsC10 = [("P", 1), ("Q", 1)] ∧
    List.Perm [("Q", 1), ("P", 1)] (neighborhoodFrequency nsC10) ∧
    FindBestNeighborhood idh provOK [("P", 1), ("Q", 1)] nsC10 = Except.ok nQ10 ∧
    FindBestNeighborhood idh provOK [("Q", 1), ("P", 1)] nsC10 = Except.ok nP10 ∧
    nQ10 ≠ nP10 :=
  ⟨rfl, by decide, rfl, rfl, by decide⟩
